import Mathlib

/-!
Shallow embedding of `src/app/src/lib/stores/notifications-store.ts` (the
`NotificationsStore` class of GitHub Desktop failed-check notification
pipeline), together with the external collaborator interfaces it consumes.

Modelling conventions:
- `async` code becomes pure state passing; every externally-awaited
  collaborator call is recorded in an explicit `Effect` trace so that claims
  about "no network call happens" are statements about the trace.
- The mutable fields of the class (`repository`, `cachedCommits`,
  `skipCommitShas`) become a `NotificationsState` record. The JS `Map` is an
  association list with first-match lookup and key-replacing set; the JS `Set`
  is a duplicate-free-by-construction list.
- The only place the live `this.repository` is re-read after the entry of
  `handleChecksFailedEvent` is inside `postChecksFailedNotification`
  (line 178 of the source). The value the field holds at that moment is
  passed explicitly as `selAtDispatch`, so a mid-flight `selectRepository`
  call is modelled by instantiating `selAtDispatch` differently from the
  entry-time selection stored in the state.
- Collaborator results (pull-request cache, accounts store, git commit
  lookup, the two REST fetches) are an oracle record `Env` of pure functions.
-/

/-- A GitHub repository identity: API endpoint, owner login and name
(`GitHubRepository` in `models/github-repository`). -/
structure GitHubRepository where
  endpoint : String
  ownerLogin : String
  name : String
deriving DecidableEq, Repr

/-- A local repository, which may or may not have a linked GitHub repository
(`Repository` from `models/repository`). -/
structure Repository where
  id : Nat
  gitHubRepository : Option GitHubRepository
deriving DecidableEq, Repr

/-- A repository that is guaranteed to carry a linked GitHub repository
(`RepositoryWithGitHubRepository`). -/
structure RepositoryWithGitHubRepository where
  id : Nat
  gitHubRepository : GitHubRepository
deriving DecidableEq, Repr

/-- `isRepositoryWithGitHubRepository` from `models/repository`: the type
guard used by `selectRepository`. -/
def isRepositoryWithGitHubRepository (r : Repository) : Bool :=
  r.gitHubRepository.isSome

/-- An email record of an account (`Account.emails` entries have an `email`
field). -/
structure AccountEmail where
  email : String
deriving DecidableEq, Repr

/-- A signed-in account: endpoint plus its list of emails (the fields of
`Account` used by this store). -/
structure Account where
  endpoint : String
  emails : List AccountEmail
deriving DecidableEq, Repr

/-- The head ref of a pull request (`pullRequest.head.ref`). -/
structure PullRequestRef where
  ref : String
deriving DecidableEq, Repr

/-- A pull request: number, title and head ref (the fields of `PullRequest`
used by this store). -/
structure PullRequest where
  pullRequestNumber : Nat
  title : String
  head : PullRequestRef
deriving DecidableEq, Repr

/-- The author identity of a commit (`commit.author.email`). -/
structure CommitIdentity where
  email : String
deriving DecidableEq, Repr

/-- A commit: sha, author and summary line (the fields of `Commit` used by
this store). -/
structure Commit where
  sha : String
  author : CommitIdentity
  summary : String
deriving DecidableEq, Repr

/-- `APICheckConclusion` from `lib/api`: the possible conclusions of a check.
Only `Failure` is compared against in this store; the remaining variants are
the other conclusions the API can report. -/
inductive APICheckConclusion where
  | ActionRequired
  | Cancelled
  | Failure
  | Neutral
  | Success
  | Skipped
  | Stale
  | TimedOut
deriving DecidableEq, Repr

/-- A normalized check (`IRefCheck` from `lib/ci-checks`): the fields this
store depends on are the name and the conclusion (`null` while still
running). -/
structure IRefCheck where
  name : String
  conclusion : Option APICheckConclusion
deriving DecidableEq, Repr

/-- A commit-status entry as returned by `fetchCombinedRefStatus`
(`statuses` array elements). Modelled from the spec: a status entry carries a
context name and a state that maps 1:1 onto a RefCheck. -/
structure IAPIRefStatusItem where
  context : String
  state : String
deriving DecidableEq, Repr

/-- The combined ref status object returned by `fetchCombinedRefStatus`. -/
structure IAPIRefStatus where
  statuses : List IAPIRefStatusItem
deriving DecidableEq, Repr

/-- A check run as returned by `fetchRefCheckRuns` (`check_runs` array
elements). Modelled from the spec: a run has a name, a run/attempt ordinal
used to pick the most recent run per name, and a conclusion. -/
structure IAPIRefCheckRun where
  name : String
  run : Nat
  conclusion : Option APICheckConclusion
deriving DecidableEq, Repr

/-- The check-runs object returned by `fetchRefCheckRuns`. -/
structure IAPIRefCheckRuns where
  check_runs : List IAPIRefCheckRun
deriving DecidableEq, Repr

/-- Modelled from the spec: `apiStatusToRefCheck` from `lib/ci-checks`
(not under `src/`) maps one status entry 1:1 into a RefCheck, carrying its
context as the name and its state as the conclusion. -/
def apiStatusToRefCheck (status : IAPIRefStatusItem) : IRefCheck :=
  { name := status.context
    conclusion :=
      if status.state = "success" then some APICheckConclusion.Success
      else if status.state = "failure" then some APICheckConclusion.Failure
      else if status.state = "error" then some APICheckConclusion.Failure
      else none }

/-- Modelled from the spec: `apiCheckRunToRefCheck` from `lib/ci-checks`
(not under `src/`) maps one check run 1:1 into a RefCheck with the same name
and conclusion. -/
def apiCheckRunToRefCheck (checkRun : IAPIRefCheckRun) : IRefCheck :=
  { name := checkRun.name, conclusion := checkRun.conclusion }

/-- Modelled from the spec: `getLatestCheckRunsByName` from `lib/ci-checks`
(not under `src/`) deduplicates check runs by name, keeping only the most
recent run per name (largest `run` ordinal; ties keep the entry that came
first in the source order, which the spec assumes is reverse-chronological).
The output keeps one entry per name, in order of first appearance. -/
def getLatestCheckRunsByName (checkRuns : List IAPIRefCheckRun) : List IAPIRefCheckRun :=
  checkRuns.foldl
    (fun acc cr =>
      match acc.find? (fun c => c.name == cr.name) with
      | none => acc ++ [cr]
      | some kept =>
        if kept.run < cr.run then
          acc.map (fun c => if c.name == cr.name then cr else c)
        else acc)
    []

/-- The combined check produced by `createCombinedCheckFromChecks`: all the
RefChecks plus an overall conclusion. -/
structure ICombinedRefCheck where
  checks : List IRefCheck
  conclusion : Option APICheckConclusion
deriving DecidableEq, Repr

/-- Severity ranking used to derive the overall conclusion as the worst
individual conclusion. Modelled from the spec, which only requires "worst
individual conclusion"; the exact ranking is not load-bearing for any claim. -/
def conclusionSeverity : Option APICheckConclusion → Nat
  | none => 4
  | some APICheckConclusion.Failure => 5
  | some APICheckConclusion.ActionRequired => 5
  | some APICheckConclusion.TimedOut => 5
  | some APICheckConclusion.Cancelled => 3
  | some APICheckConclusion.Stale => 2
  | some APICheckConclusion.Neutral => 1
  | some APICheckConclusion.Skipped => 1
  | some APICheckConclusion.Success => 0

/-- Modelled from the spec: `createCombinedCheckFromChecks` from
`lib/ci-checks` (not under `src/`) aggregates a list of RefChecks into one
combined result whose overall conclusion is the worst individual conclusion;
an empty list yields a null result. -/
def createCombinedCheckFromChecks (checks : List IRefCheck) : Option ICombinedRefCheck :=
  match checks with
  | [] => none
  | c :: cs =>
    some
      { checks := checks
        conclusion :=
          (cs.foldl
            (fun worst c =>
              if conclusionSeverity worst < conclusionSeverity c.conclusion then c.conclusion
              else worst)
            c.conclusion) }

/-- The payload of the one OS notification `postChecksFailedNotification`
shows: its title and body, plus the five values the click handler closes
over and passes to the registered `onChecksFailedCallback`. -/
structure ChecksFailedNote where
  title : String
  body : String
  clickRepository : RepositoryWithGitHubRepository
  clickPullRequest : PullRequest
  clickCommitMessage : String
  clickSha : String
  clickChecks : List IRefCheck
deriving DecidableEq, Repr

/-- One externally-observable side effect of the pipeline: a collaborator
call (each one an awaited network/IPC call in the source) or the showing of
an OS notification. -/
inductive Effect where
  | fetchPullRequests
  | fetchAccounts
  | fetchCommit (sha : String)
  | fetchCombinedRefStatus (ref : String)
  | fetchRefCheckRuns (ref : String)
  | showChecksFailedNote (note : ChecksFailedNote)
deriving DecidableEq, Repr

/-- The notifications posted in an effect trace. -/
def postedNotes (effects : List Effect) : List ChecksFailedNote :=
  effects.filterMap
    (fun e =>
      match e with
      | Effect.showChecksFailedNote note => some note
      | _ => none)

/-- Oracle for the collaborator interfaces: what each external call would
return. Pure functions stand for `PullRequestCoordinator.getAllPullRequests`,
`AccountsStore.getAll`, `getCommit` and the two REST fetches of the API
client (keyed by owner login, repository name and ref, like the source
calls). -/
structure Env where
  getAllPullRequests : RepositoryWithGitHubRepository → List PullRequest
  accounts : List Account
  getCommit : RepositoryWithGitHubRepository → String → Option Commit
  fetchCombinedRefStatus : String → String → String → Option IAPIRefStatus
  fetchRefCheckRuns : String → String → String → Option IAPIRefCheckRuns

/-- The mutable fields of `NotificationsStore`: the active-repository
selection, the commit cache and the skip set. -/
structure NotificationsState where
  repository : Option RepositoryWithGitHubRepository
  cachedCommits : List (String × Commit)
  skipCommitShas : List String
deriving DecidableEq, Repr

/-- `Map.set`: replace the value under an existing key, append otherwise. -/
def cacheSet (m : List (String × Commit)) (k : String) (v : Commit) :
    List (String × Commit) :=
  if (m.lookup k).isSome then
    m.map (fun p => if p.1 == k then (k, v) else p)
  else m ++ [(k, v)]

/-- `Set.add`: append the element unless already present. -/
def skipAdd (s : List String) (sha : String) : List String :=
  if s.contains sha then s else s ++ [sha]

/-- `selectRepository` (lines 149-153): overwrite the selection; a repository
without a linked GitHub repository clears it. -/
def selectRepository (st : NotificationsState) (r : Repository) : NotificationsState :=
  { st with
    repository :=
      if isRepositoryWithGitHubRepository r then
        match r.gitHubRepository with
        | some gh => some { id := r.id, gitHubRepository := gh }
        | none => none
      else none }

/-- `getAccountForRepository` (lines 155-160): the first account whose
endpoint matches the repository endpoint, else null. -/
def getAccountForRepository (env : Env) (repository : GitHubRepository) : Option Account :=
  env.accounts.find? (fun a => a.endpoint == repository.endpoint)

/-- `getAPIForRepository` (lines 162-170): null when no account matches;
`API.fromAccount` itself is modelled as the account, since every API result
is supplied by the `Env` oracle. -/
def getAPIForRepository (env : Env) (repository : GitHubRepository) : Option Account :=
  getAccountForRepository env repository

/-- The concatenation built in `getChecksForRef` lines 237-252: mapped
status entries first, then the name-deduplicated latest check runs. -/
def combinedChecksOf (statuses : IAPIRefStatus) (checkRuns : IAPIRefCheckRuns) :
    List IRefCheck :=
  statuses.statuses.map apiStatusToRefCheck ++
    (getLatestCheckRunsByName checkRuns.check_runs).map apiCheckRunToRefCheck

/-- `getChecksForRef` (lines 219-261): resolve an API client (one accounts
fetch); fetch combined ref status and ref check runs in parallel; if either
is null return null; otherwise combine and return null when the combined
list is empty, else the combined list. The second component is the effect
trace of the collaborator calls made. -/
def getChecksForRef (env : Env) (repository : RepositoryWithGitHubRepository)
    (ref : String) : Option (List IRefCheck) × List Effect :=
  let gitHubRepository := repository.gitHubRepository
  match getAPIForRepository env gitHubRepository with
  | none => (none, [Effect.fetchAccounts])
  | some _ =>
    let effects := [Effect.fetchAccounts, Effect.fetchCombinedRefStatus ref,
      Effect.fetchRefCheckRuns ref]
    match env.fetchCombinedRefStatus gitHubRepository.ownerLogin gitHubRepository.name ref,
        env.fetchRefCheckRuns gitHubRepository.ownerLogin gitHubRepository.name ref with
    | some statuses, some checkRuns =>
      match createCombinedCheckFromChecks (combinedChecksOf statuses checkRuns) with
      | none => (none, effects)
      | some check =>
        if check.checks.length == 0 then (none, effects) else (some check.checks, effects)
    | _, _ => (none, effects)

/-- The failed-check count of lines 184-186: the number of checks whose
conclusion is exactly `Failure`. -/
def numberOfFailedChecks (checks : List IRefCheck) : Nat :=
  (checks.filter (fun check => check.conclusion == some APICheckConclusion.Failure)).length

/-- `postChecksFailedNotification` (lines 172-217). It re-reads the live
`this.repository`; the value that field holds at this moment is the
`selAtDispatch` argument. Returns the notification it shows, or none when it
suppresses (live selection null, or zero failed checks). -/
def postChecksFailedNotification (selAtDispatch : Option RepositoryWithGitHubRepository)
    (pullRequest : PullRequest) (checks : List IRefCheck) (sha : String)
    (commitMessage : String) : Option ChecksFailedNote :=
  match selAtDispatch with
  | none => none
  | some repository =>
    let n := numberOfFailedChecks checks
    if n == 0 then none
    else
      let pluralChecks := if n == 1 then "check was" else "checks were"
      let shortSHA := sha.take 9
      some
        { title := "Pull Request checks failed"
          body := pullRequest.title ++ " #" ++ toString pullRequest.pullRequestNumber ++
            " (" ++ shortSHA ++ ")\n" ++ toString n ++ " " ++ pluralChecks ++
            " not successful."
          clickRepository := repository
          clickPullRequest := pullRequest
          clickCommitMessage := commitMessage
          clickSha := sha
          clickChecks := checks }

/-- The continuation of `handleChecksFailedEvent` from line 125 on, shared by
the cache-hit and the fetch path of the `??` on lines 117-119: cache the
resolved commit, apply the author-email relevance filter (adding to the skip
set on mismatch), fetch the checks for the PR head ref and dispatch the
notification. -/
def handleResolvedCommit (st : NotificationsState) (env : Env)
    (selAtDispatch : Option RepositoryWithGitHubRepository)
    (repository : RepositoryWithGitHubRepository) (pullRequest : PullRequest)
    (account : Account) (commitSHA : String) (commit : Commit)
    (effectsSoFar : List Effect) : NotificationsState × List Effect :=
  let st := { st with cachedCommits := cacheSet st.cachedCommits commitSHA commit }
  if !((account.emails.map (fun e => e.email)).contains commit.author.email) then
    ({ st with skipCommitShas := skipAdd st.skipCommitShas commitSHA }, effectsSoFar)
  else
    match getChecksForRef env repository pullRequest.head.ref with
    | (none, checkEffects) => (st, effectsSoFar ++ checkEffects)
    | (some checks, checkEffects) =>
      match postChecksFailedNotification selAtDispatch pullRequest checks commitSHA
          commit.summary with
      | none => (st, effectsSoFar ++ checkEffects)
      | some note =>
        (st, effectsSoFar ++ checkEffects ++ [Effect.showChecksFailedNote note])

/-- `handleChecksFailedEvent` (lines 84-143). `st.repository` is the
selection read once at entry (line 85); `selAtDispatch` is the value the
live `this.repository` field holds when `postChecksFailedNotification`
re-reads it at line 178 (equal to `st.repository` when no mid-flight
`selectRepository` call happens). Short-circuits silently at each step, in
source order: no selection; PR not in cache (one pull-request fetch); no
account for the endpoint (one accounts fetch); SHA in the skip set; commit
unresolvable (adds SHA to the skip set). -/
def handleChecksFailedEvent (st : NotificationsState) (pullRequestNumber : Nat)
    (commitSHA : String) (env : Env)
    (selAtDispatch : Option RepositoryWithGitHubRepository) :
    NotificationsState × List Effect :=
  match st.repository with
  | none => (st, [])
  | some repository =>
    let effectsA := [Effect.fetchPullRequests]
    match (env.getAllPullRequests repository).find?
        (fun pr => pr.pullRequestNumber == pullRequestNumber) with
    | none => (st, effectsA)
    | some pullRequest =>
      let effectsB := effectsA ++ [Effect.fetchAccounts]
      match getAccountForRepository env repository.gitHubRepository with
      | none => (st, effectsB)
      | some account =>
        if st.skipCommitShas.contains commitSHA then (st, effectsB)
        else
          match st.cachedCommits.lookup commitSHA with
          | some commit =>
            handleResolvedCommit st env selAtDispatch repository pullRequest account
              commitSHA commit effectsB
          | none =>
            let effectsC := effectsB ++ [Effect.fetchCommit commitSHA]
            match env.getCommit repository commitSHA with
            | none =>
              ({ st with skipCommitShas := skipAdd st.skipCommitShas commitSHA }, effectsC)
            | some commit =>
              handleResolvedCommit st env selAtDispatch repository pullRequest account
                commitSHA commit effectsC

/-- The alive-event payload `IDesktopChecksFailedAliveEvent`: the fields this
store reads are the pull-request number and the commit SHA. -/
structure IDesktopChecksFailedAliveEvent where
  pull_request_number : Nat
  commit_sha : String
deriving DecidableEq, Repr

/-- `DesktopAliveEvent`. Modelled from the spec: a tagged union of real-time
event kinds, of which only the checks-failed kind (`pr-checks-failed`) is
handled; other (including future/unknown) kinds are carried as a bare tag. -/
inductive DesktopAliveEvent where
  | prChecksFailed (event : IDesktopChecksFailedAliveEvent)
  | otherKind (tag : String)
deriving DecidableEq, Repr

/-- `onAliveEventReceived` (lines 77-82): dispatch on the event kind; only
`pr-checks-failed` is handled, every other kind falls through the `switch`
and does nothing. -/
def onAliveEventReceived (st : NotificationsState) (e : DesktopAliveEvent) (env : Env)
    (selAtDispatch : Option RepositoryWithGitHubRepository) :
    NotificationsState × List Effect :=
  match e with
  | DesktopAliveEvent.prChecksFailed event =>
    handleChecksFailedEvent st event.pull_request_number event.commit_sha env selAtDispatch
  | DesktopAliveEvent.otherKind _ => (st, [])

/-- The persisted local storage visible to this store: the value (if any)
stored under the `high-signal-notifications-enabled` key. -/
structure SettingsState where
  notificationsEnabledValue : Option Bool
deriving DecidableEq, Repr

/-- A side effect of the settings flag: the `setBoolean` persistence write,
or the synchronous `AliveStore.setEnabled` propagation. -/
inductive SettingsEffect where
  | persistBooleanWrite (value : Bool)
  | aliveSetEnabled (value : Bool)
deriving DecidableEq, Repr

/-- `getBoolean` from `lib/local-storage`: the stored value, or the given
default when absent. -/
def getBoolean (stored : Option Bool) (defaultValue : Bool) : Bool :=
  stored.getD defaultValue

/-- `getNotificationsEnabled` (lines 73-75): `getBoolean(key, true)`. -/
def getNotificationsEnabled (s : SettingsState) : Bool :=
  getBoolean s.notificationsEnabledValue true

/-- `setNotificationsEnabled` (lines 62-71): read the effective value
(default true); if it equals the new value, return with no effects;
otherwise persist the new value and call `AliveStore.setEnabled`
synchronously. -/
def setNotificationsEnabled (s : SettingsState) (enabled : Bool) :
    SettingsState × List SettingsEffect :=
  let previousValue := getBoolean s.notificationsEnabledValue true
  if previousValue == enabled then (s, [])
  else
    ({ notificationsEnabledValue := some enabled },
      [SettingsEffect.persistBooleanWrite enabled, SettingsEffect.aliveSetEnabled enabled])

/-!
Concrete sample inputs used by the witnesses and counterexamples below:
a GitHub-linked repository `repoA` (and a distinct `repoB` on the same
endpoint), an account whose only email matches the author of `commitMine` (but not
`commitTheirs`), one cached pull request, and an environment `envOk` whose
check-run fetch yields a single failing "build" run.
-/

def ghA : GitHubRepository := ⟨"https://api.github.com", "octo", "alpha"⟩
def ghB : GitHubRepository := ⟨"https://api.github.com", "octo", "beta"⟩
def repoA : RepositoryWithGitHubRepository := ⟨1, ghA⟩
def repoB : RepositoryWithGitHubRepository := ⟨2, ghB⟩
def accountA : Account := ⟨"https://api.github.com", [⟨"me@example.com"⟩]⟩
def prOne : PullRequest := ⟨1, "Add feature", ⟨"feature-branch"⟩⟩
def commitMine : Commit := ⟨"abc1234567890", ⟨"me@example.com"⟩, "Add feature"⟩
def commitTheirs : Commit := ⟨"abc1234567890", ⟨"them@example.com"⟩, "Their change"⟩
def failingRun : IAPIRefCheckRun := ⟨"build", 1, some APICheckConclusion.Failure⟩
def envOk : Env :=
  { getAllPullRequests := fun _ => [prOne]
    accounts := [accountA]
    getCommit := fun _ _ => some commitMine
    fetchCombinedRefStatus := fun _ _ _ => some ⟨[]⟩
    fetchRefCheckRuns := fun _ _ _ => some ⟨[failingRun]⟩ }
def envTheirs : Env := { envOk with getCommit := fun _ _ => some commitTheirs }
def st0 : NotificationsState := ⟨some repoA, [], []⟩

/-- The state used by the C3 witness: the commit SHA is already in the Skip
Set. -/
def stSkip : NotificationsState := ⟨some repoA, [], ["abc1234567890"]⟩

/-- Environment for the C7 witness: one lint status entry and two runs of
the same "build" check, the second more recent. -/
def envC7 : Env :=
  { envOk with
    fetchCombinedRefStatus := fun _ _ _ => some ⟨[{ context := "lint", state := "success" }]⟩
    fetchRefCheckRuns := fun _ _ _ =>
      some ⟨[{ name := "build", run := 1, conclusion := some APICheckConclusion.Success },
             { name := "build", run := 2, conclusion := some APICheckConclusion.Failure }]⟩ }

theorem postedNotes_append (a b : List Effect) :
    postedNotes (a ++ b) = postedNotes a ++ postedNotes b := by
  simp [postedNotes]

theorem postedNotes_show (note : ChecksFailedNote) :
    postedNotes [Effect.showChecksFailedNote note] = [note] := by
  simp [postedNotes]

theorem getChecksForRef_no_notes (env : Env) (repository : RepositoryWithGitHubRepository)
    (ref : String) : postedNotes (getChecksForRef env repository ref).2 = [] := by
  cases h1 : getAPIForRepository env repository.gitHubRepository with
  | none => simp [getChecksForRef, h1, postedNotes]
  | some a =>
    cases h2 : env.fetchCombinedRefStatus repository.gitHubRepository.ownerLogin
        repository.gitHubRepository.name ref with
    | none => simp [getChecksForRef, h1, h2, postedNotes]
    | some statuses =>
      cases h3 : env.fetchRefCheckRuns repository.gitHubRepository.ownerLogin
          repository.gitHubRepository.name ref with
      | none => simp [getChecksForRef, h1, h2, h3, postedNotes]
      | some checkRuns =>
        cases h4 : createCombinedCheckFromChecks (combinedChecksOf statuses checkRuns) with
        | none => simp [getChecksForRef, h1, h2, h3, h4, postedNotes]
        | some check =>
          by_cases h5 : check.checks.length = 0 <;>
            simp [getChecksForRef, h1, h2, h3, h4, h5, postedNotes]

theorem post_some_clickRepository (sel : Option RepositoryWithGitHubRepository)
    (pr : PullRequest) (checks : List IRefCheck) (sha msg : String)
    (note : ChecksFailedNote)
    (h : postChecksFailedNotification sel pr checks sha msg = some note) :
    sel = some note.clickRepository := by
  cases sel with
  | none => simp [postChecksFailedNotification] at h
  | some repository =>
    by_cases hn : numberOfFailedChecks checks = 0
    · simp [postChecksFailedNotification, hn] at h
    · simp [postChecksFailedNotification, hn] at h
      rw [Option.some_inj]
      subst h
      rfl

theorem handleResolvedCommit_notes (st : NotificationsState) (env : Env)
    (sel : Option RepositoryWithGitHubRepository)
    (repository : RepositoryWithGitHubRepository) (pullRequest : PullRequest)
    (account : Account) (commitSHA : String) (commit : Commit)
    (effectsSoFar : List Effect) (h : postedNotes effectsSoFar = []) :
    ∀ note ∈ postedNotes (handleResolvedCommit st env sel repository pullRequest account
        commitSHA commit effectsSoFar).2,
      ∃ checks, (getChecksForRef env repository pullRequest.head.ref).1 = some checks ∧
        postChecksFailedNotification sel pullRequest checks commitSHA commit.summary =
          some note := by
  intro note hnote
  unfold handleResolvedCommit at hnote
  split at hnote
  · rw [h] at hnote
    simp at hnote
  · rcases hg : getChecksForRef env repository pullRequest.head.ref with ⟨checksOpt, checkEffects⟩
    have hce : postedNotes checkEffects = [] := by
      have := getChecksForRef_no_notes env repository pullRequest.head.ref
      rw [hg] at this
      exact this
    rw [hg] at hnote
    cases checksOpt with
    | none =>
      simp [postedNotes_append, h, hce] at hnote
    | some checks =>
      dsimp only at hnote
      split at hnote
      next hp =>
        simp [postedNotes_append, h, hce] at hnote
      next note2 hp =>
        simp only [postedNotes_append, h, hce, postedNotes_show, List.nil_append,
          List.mem_singleton] at hnote
        exact ⟨checks, rfl, by rw [hnote]; exact hp⟩

theorem handle_notes_sel (st : NotificationsState) (prNum : Nat) (sha : String) (env : Env)
    (sel : Option RepositoryWithGitHubRepository) :
    ∀ note ∈ postedNotes (handleChecksFailedEvent st prNum sha env sel).2,
      sel = some note.clickRepository := by
  intro note hnote
  unfold handleChecksFailedEvent at hnote
  cases hrepo : st.repository with
  | none =>
    rw [hrepo] at hnote
    simp [postedNotes] at hnote
  | some repository =>
    rw [hrepo] at hnote
    dsimp only at hnote
    split at hnote
    · simp [postedNotes] at hnote
    · split at hnote
      · simp [postedNotes] at hnote
      · split at hnote
        · simp [postedNotes] at hnote
        · split at hnote
          · obtain ⟨checks, hcs, hp⟩ :=
              handleResolvedCommit_notes _ _ _ _ _ _ _ _ _ (by simp [postedNotes]) note hnote
            exact post_some_clickRepository _ _ _ _ _ _ hp
          · split at hnote
            · simp [postedNotes] at hnote
            · obtain ⟨checks, hcs, hp⟩ :=
                handleResolvedCommit_notes _ _ _ _ _ _ _ _ _ (by simp [postedNotes]) note hnote
              exact post_some_clickRepository _ _ _ _ _ _ hp

theorem postChecksFailedNotification_eq (repository : RepositoryWithGitHubRepository)
    (pr : PullRequest) (checks : List IRefCheck) (sha msg : String)
    (hn : numberOfFailedChecks checks ≠ 0) :
    postChecksFailedNotification (some repository) pr checks sha msg =
      some { title := "Pull Request checks failed"
             body := pr.title ++ " #" ++ toString pr.pullRequestNumber ++ " (" ++
               sha.take 9 ++ ")\n" ++ toString (numberOfFailedChecks checks) ++ " " ++
               (if numberOfFailedChecks checks = 1 then "check was" else "checks were") ++
               " not successful."
             clickRepository := repository
             clickPullRequest := pr
             clickCommitMessage := msg
             clickSha := sha
             clickChecks := checks } := by
  simp [postChecksFailedNotification, hn]

theorem handleResolvedCommit_posted_eq (st : NotificationsState) (env : Env)
    (sel : Option RepositoryWithGitHubRepository)
    (repository : RepositoryWithGitHubRepository) (pullRequest : PullRequest)
    (account : Account) (commitSHA : String) (commit : Commit)
    (effectsSoFar : List Effect) (checks : List IRefCheck)
    (hemail : (account.emails.map (fun e => e.email)).contains commit.author.email = true)
    (hchecks : (getChecksForRef env repository pullRequest.head.ref).1 = some checks)
    (heff : postedNotes effectsSoFar = []) :
    postedNotes (handleResolvedCommit st env sel repository pullRequest account
        commitSHA commit effectsSoFar).2 =
      (postChecksFailedNotification sel pullRequest checks commitSHA commit.summary).toList := by
  unfold handleResolvedCommit
  rw [hemail]
  rcases hg : getChecksForRef env repository pullRequest.head.ref with ⟨o, eff⟩
  have hce : postedNotes eff = [] := by
    have h2 := getChecksForRef_no_notes env repository pullRequest.head.ref
    rw [hg] at h2
    exact h2
  rw [hg] at hchecks
  dsimp only at hchecks
  subst hchecks
  split
  next hcond => simp at hcond
  next hcond =>
    dsimp only
    cases hp : postChecksFailedNotification sel pullRequest checks commitSHA commit.summary with
    | none =>
      dsimp only
      rw [postedNotes_append, heff, hce]
      rfl
    | some note =>
      dsimp only
      rw [postedNotes_append, postedNotes_append, heff, hce, postedNotes_show]
      rfl

theorem handle_posted_eq (st : NotificationsState) (prNum : Nat) (sha : String) (env : Env)
    (sel : Option RepositoryWithGitHubRepository)
    (repository : RepositoryWithGitHubRepository) (pullRequest : PullRequest)
    (account : Account) (commit : Commit) (checks : List IRefCheck)
    (hrepo : st.repository = some repository)
    (hpr : (env.getAllPullRequests repository).find?
        (fun pr => pr.pullRequestNumber == prNum) = some pullRequest)
    (hacct : getAccountForRepository env repository.gitHubRepository = some account)
    (hskip : st.skipCommitShas.contains sha = false)
    (hcommit : (st.cachedCommits.lookup sha).or (env.getCommit repository sha) = some commit)
    (hemail : (account.emails.map (fun e => e.email)).contains commit.author.email = true)
    (hchecks : (getChecksForRef env repository pullRequest.head.ref).1 = some checks) :
    postedNotes (handleChecksFailedEvent st prNum sha env sel).2 =
      (postChecksFailedNotification sel pullRequest checks sha commit.summary).toList := by
  unfold handleChecksFailedEvent
  rw [hrepo]
  dsimp only
  rw [hpr]
  dsimp only
  rw [hacct]
  dsimp only
  rw [hskip]
  simp only [Bool.false_eq_true, if_false]
  cases hlook : st.cachedCommits.lookup sha with
  | some c =>
    rw [hlook] at hcommit
    have hc : c = commit := Option.some_inj.mp hcommit
    subst hc
    dsimp only
    exact handleResolvedCommit_posted_eq _ _ _ _ _ _ _ _ _ _ hemail hchecks (by rfl)
  | none =>
    rw [hlook] at hcommit
    have hc : env.getCommit repository sha = some commit := hcommit
    dsimp only
    rw [hc]
    dsimp only
    exact handleResolvedCommit_posted_eq _ _ _ _ _ _ _ _ _ _ hemail hchecks (by rfl)

theorem lookup_map_replace (m : List (String × Commit)) (k : String) (v : Commit)
    (h : (m.lookup k).isSome) :
    (m.map (fun p => if p.1 == k then (k, v) else p)).lookup k = some v := by
  induction m with
  | nil => simp at h
  | cons p rest ih =>
    obtain ⟨a, b⟩ := p
    by_cases hk : a = k
    · subst hk
      have hhead : (if (((a, b) : String × Commit).1 == a) = true then (a, v) else (a, b)) =
          (a, v) := by simp
      have hself : (a == a) = true := by simp
      rw [List.map_cons, hhead, List.lookup_cons, hself]
    · have hba : (k == a) = false := by simp [Ne.symm hk]
      have h2 : (rest.lookup k).isSome := by
        rw [List.lookup_cons, hba] at h
        exact h
      have hhead : (if (((a, b) : String × Commit).1 == k) = true then (k, v) else (a, b)) =
          (a, b) := by simp [hk]
      rw [List.map_cons, hhead, List.lookup_cons, hba]
      exact ih h2

theorem lookup_append_single (m : List (String × Commit)) (k : String) (v : Commit)
    (h : m.lookup k = none) :
    (m ++ [(k, v)]).lookup k = some v := by
  induction m with
  | nil => simp
  | cons p rest ih =>
    obtain ⟨a, b⟩ := p
    rw [List.lookup_cons] at h
    by_cases hk : k = a
    · have hba : (k == a) = true := by simp [hk]
      rw [hba] at h
      exact Option.noConfusion h
    · have hba : (k == a) = false := by simp [hk]
      rw [hba] at h
      rw [List.cons_append, List.lookup_cons, hba]
      exact ih h

theorem lookup_cacheSet (m : List (String × Commit)) (k : String) (v : Commit) :
    (cacheSet m k v).lookup k = some v := by
  unfold cacheSet
  split
  next hsome => exact lookup_map_replace m k v hsome
  next hnone =>
    cases hm : m.lookup k with
    | none => exact lookup_append_single m k v hm
    | some c =>
      rw [hm] at hnone
      simp at hnone

theorem contains_skipAdd_self (s : List String) (sha : String) :
    (skipAdd s sha).contains sha = true := by
  unfold skipAdd
  split
  next h => exact h
  next h => simp

theorem handleResolvedCommit_state_ok (st : NotificationsState) (env : Env)
    (sel : Option RepositoryWithGitHubRepository)
    (repository : RepositoryWithGitHubRepository) (pullRequest : PullRequest)
    (account : Account) (commitSHA : String) (commit : Commit) (effectsSoFar : List Effect)
    (hemail : (account.emails.map (fun e => e.email)).contains commit.author.email = true) :
    (handleResolvedCommit st env sel repository pullRequest account commitSHA commit
        effectsSoFar).1 =
      { st with cachedCommits := cacheSet st.cachedCommits commitSHA commit } := by
  unfold handleResolvedCommit
  rw [hemail]
  rcases hg : getChecksForRef env repository pullRequest.head.ref with ⟨o, eff⟩
  cases o with
  | none => rfl
  | some checks =>
    cases hp : postChecksFailedNotification sel pullRequest checks commitSHA
        commit.summary with
    | none =>
      simp only [hp]
      rfl
    | some note =>
      simp only [hp]
      rfl

theorem handleResolvedCommit_state_reject (st : NotificationsState) (env : Env)
    (sel : Option RepositoryWithGitHubRepository)
    (repository : RepositoryWithGitHubRepository) (pullRequest : PullRequest)
    (account : Account) (commitSHA : String) (commit : Commit) (effectsSoFar : List Effect)
    (hemail : (account.emails.map (fun e => e.email)).contains commit.author.email = false) :
    (handleResolvedCommit st env sel repository pullRequest account commitSHA commit
        effectsSoFar).1 =
      { st with cachedCommits := cacheSet st.cachedCommits commitSHA commit,
                skipCommitShas := skipAdd st.skipCommitShas commitSHA } := by
  unfold handleResolvedCommit
  rw [hemail]
  rfl

theorem handle_reaches_resolved (st : NotificationsState) (prNum : Nat) (sha : String)
    (env : Env) (sel : Option RepositoryWithGitHubRepository)
    (repository : RepositoryWithGitHubRepository) (pullRequest : PullRequest)
    (account : Account) (commit : Commit)
    (hrepo : st.repository = some repository)
    (hpr : (env.getAllPullRequests repository).find?
        (fun pr => pr.pullRequestNumber == prNum) = some pullRequest)
    (hacct : getAccountForRepository env repository.gitHubRepository = some account)
    (hskip : st.skipCommitShas.contains sha = false)
    (hcommit : (st.cachedCommits.lookup sha).or (env.getCommit repository sha) = some commit) :
    ∃ eff, handleChecksFailedEvent st prNum sha env sel =
        handleResolvedCommit st env sel repository pullRequest account sha commit eff ∧
      postedNotes eff = [] := by
  unfold handleChecksFailedEvent
  rw [hrepo]
  dsimp only
  rw [hpr]
  dsimp only
  rw [hacct]
  dsimp only
  rw [hskip]
  simp only [Bool.false_eq_true, if_false]
  cases hlook : st.cachedCommits.lookup sha with
  | some c =>
    rw [hlook] at hcommit
    have hc : c = commit := Option.some_inj.mp hcommit
    subst hc
    exact ⟨_, rfl, rfl⟩
  | none =>
    rw [hlook] at hcommit
    have hc : env.getCommit repository sha = some commit := hcommit
    dsimp only
    rw [hc]
    exact ⟨_, rfl, rfl⟩

/-- Claim C1, counterexample: with the concrete pipeline `envOk` and entry
selection `repoA`, changing the selection mid-flight (via `selectRepository`)
to the different GitHub-linked repository `repoB` does not suppress the
notification: one is still posted. -/
theorem C1_stale_selection_counterexample :
    st0.repository = some repoA ∧
    (selectRepository st0 { id := 2, gitHubRepository := some ghB }).repository = some repoB ∧
    repoB ≠ repoA ∧
    postedNotes (handleChecksFailedEvent st0 1 "abc1234567890" envOk (some repoB)).2 ≠ [] := by
  refine ⟨rfl, rfl, by decide, by decide⟩

/-- Claim C1 (amended): the live selection is re-read at dispatch time rather
than snapshotted at event intake, so if the selection has become null (no
repository, or one without a GitHub link) no notification is posted; any
notification that is posted targets the dispatch-time selection (its click
repository is the live selection), not the entry-time snapshot. -/
theorem C1_dispatch_reads_live_selection (st : NotificationsState) (prNum : Nat)
    (sha : String) (env : Env) (sel : Option RepositoryWithGitHubRepository) :
    (sel = none → postedNotes (handleChecksFailedEvent st prNum sha env sel).2 = []) ∧
    (∀ note ∈ postedNotes (handleChecksFailedEvent st prNum sha env sel).2,
      sel = some note.clickRepository) := by
  refine ⟨?_, handle_notes_sel st prNum sha env sel⟩
  intro hsel
  subst hsel
  rw [List.eq_nil_iff_forall_not_mem]
  intro note hmem
  exact Option.noConfusion (handle_notes_sel st prNum sha env none note hmem)

/-- Witness for C1: at the concrete successful pipeline `envOk`, a null
dispatch-time selection yields no posted notification. -/
theorem C1_dispatch_reads_live_selection_witness :
    postedNotes (handleChecksFailedEvent st0 1 "abc1234567890" envOk none).2 = [] :=
  (C1_dispatch_reads_live_selection st0 1 "abc1234567890" envOk none).1 rfl

/-- Claim C2, counterexample: after handling a checks-failed event whose
commit resolves but whose author email is not among the account emails
(`envTheirs`), the SHA is present in the Commit Cache and in the Skip Set at
the same time. -/
theorem C2_cache_skip_overlap_counterexample :
    ((handleChecksFailedEvent st0 1 "abc1234567890" envTheirs
        (some repoA)).1.cachedCommits.lookup "abc1234567890").isSome = true ∧
    (handleChecksFailedEvent st0 1 "abc1234567890" envTheirs
        (some repoA)).1.skipCommitShas.contains "abc1234567890" = true := by
  refine ⟨by decide, by decide⟩

/-- Claim C2 (amended): once the commit is resolved it is always placed in
the Commit Cache; it is additionally added to the Skip Set exactly when the
author-email relevance filter rejects it, so a resolved-but-rejected SHA
ends up in both structures (and an accepted SHA only in the cache). -/
theorem C2_resolved_commit_placement (st : NotificationsState) (prNum : Nat) (sha : String)
    (env : Env) (sel : Option RepositoryWithGitHubRepository)
    (repository : RepositoryWithGitHubRepository) (pullRequest : PullRequest)
    (account : Account) (commit : Commit)
    (hrepo : st.repository = some repository)
    (hpr : (env.getAllPullRequests repository).find?
        (fun pr => pr.pullRequestNumber == prNum) = some pullRequest)
    (hacct : getAccountForRepository env repository.gitHubRepository = some account)
    (hskip : st.skipCommitShas.contains sha = false)
    (hcommit : (st.cachedCommits.lookup sha).or (env.getCommit repository sha) = some commit) :
    (handleChecksFailedEvent st prNum sha env sel).1.cachedCommits.lookup sha = some commit ∧
    (handleChecksFailedEvent st prNum sha env sel).1.skipCommitShas.contains sha =
      !((account.emails.map (fun e => e.email)).contains commit.author.email) := by
  obtain ⟨eff, heq, -⟩ := handle_reaches_resolved st prNum sha env sel repository
    pullRequest account commit hrepo hpr hacct hskip hcommit
  rw [heq]
  cases hemail : (account.emails.map (fun e => e.email)).contains commit.author.email with
  | false =>
    rw [handleResolvedCommit_state_reject st env sel repository pullRequest account sha
      commit eff hemail]
    exact ⟨lookup_cacheSet st.cachedCommits sha commit,
      contains_skipAdd_self st.skipCommitShas sha⟩
  | true =>
    rw [handleResolvedCommit_state_ok st env sel repository pullRequest account sha
      commit eff hemail]
    exact ⟨lookup_cacheSet st.cachedCommits sha commit, hskip⟩

/-- Witness for C2 (amended), on the accepting pipeline `envOk`: the resolved
commit lands in the cache and the skip set stays clear of the SHA. -/
theorem C2_resolved_commit_placement_witness :
    (handleChecksFailedEvent st0 1 "abc1234567890" envOk
        (some repoA)).1.cachedCommits.lookup "abc1234567890" = some commitMine ∧
    (handleChecksFailedEvent st0 1 "abc1234567890" envOk
        (some repoA)).1.skipCommitShas.contains "abc1234567890" =
      !((accountA.emails.map (fun e => e.email)).contains commitMine.author.email) :=
  C2_resolved_commit_placement st0 1 "abc1234567890" envOk (some repoA) repoA prOne
    accountA commitMine rfl rfl rfl rfl rfl

/-- Claim C3, counterexample: after an author-mismatch abort puts the SHA in
the Skip Set, a second identical event still performs the pull-request list
fetch and the account lookup (both collaborator/network calls) before the
skip check short-circuits it. -/
theorem C3_skip_network_counterexample :
    (handleChecksFailedEvent st0 1 "abc1234567890" envTheirs
        (some repoA)).1.skipCommitShas.contains "abc1234567890" = true ∧
    Effect.fetchPullRequests ∈
      (handleChecksFailedEvent (handleChecksFailedEvent st0 1 "abc1234567890" envTheirs
          (some repoA)).1 1 "abc1234567890" envTheirs (some repoA)).2 ∧
    Effect.fetchAccounts ∈
      (handleChecksFailedEvent (handleChecksFailedEvent st0 1 "abc1234567890" envTheirs
          (some repoA)).1 1 "abc1234567890" envTheirs (some repoA)).2 := by
  refine ⟨by decide, by decide, by decide⟩

/-- Claim C3 (amended): an author-email mismatch adds the SHA to the Skip
Set, and a subsequent event carrying a skipped SHA leaves the state unchanged
and performs no commit fetch and no check/status fetch (and posts nothing):
its only possible effects are the pull-request list fetch and the account
lookup, which still happen before the skip check. -/
theorem C3_skip_set_short_circuit (st : NotificationsState) (prNum : Nat) (sha : String)
    (env : Env) (sel : Option RepositoryWithGitHubRepository) :
    (∀ repository pullRequest account commit,
      st.repository = some repository →
      (env.getAllPullRequests repository).find?
          (fun pr => pr.pullRequestNumber == prNum) = some pullRequest →
      getAccountForRepository env repository.gitHubRepository = some account →
      st.skipCommitShas.contains sha = false →
      (st.cachedCommits.lookup sha).or (env.getCommit repository sha) = some commit →
      (account.emails.map (fun e => e.email)).contains commit.author.email = false →
      (handleChecksFailedEvent st prNum sha env sel).1.skipCommitShas.contains sha = true) ∧
    (st.skipCommitShas.contains sha = true →
      (handleChecksFailedEvent st prNum sha env sel).1 = st ∧
      ∀ e ∈ (handleChecksFailedEvent st prNum sha env sel).2,
        e = Effect.fetchPullRequests ∨ e = Effect.fetchAccounts) := by
  constructor
  · intro repository pullRequest account commit hrepo hpr hacct hskip hcommit hemail
    obtain ⟨eff, heq, -⟩ := handle_reaches_resolved st prNum sha env sel repository
      pullRequest account commit hrepo hpr hacct hskip hcommit
    rw [heq, handleResolvedCommit_state_reject st env sel repository pullRequest account
      sha commit eff hemail]
    exact contains_skipAdd_self st.skipCommitShas sha
  · intro hskip
    unfold handleChecksFailedEvent
    cases hrepo : st.repository with
    | none => exact ⟨rfl, by intro e he; simp at he⟩
    | some repository =>
      dsimp only
      cases hpr : (env.getAllPullRequests repository).find?
          (fun pr => pr.pullRequestNumber == prNum) with
      | none =>
        refine ⟨rfl, ?_⟩
        intro e he
        simp at he
        exact Or.inl he
      | some pullRequest =>
        dsimp only
        cases hacct : getAccountForRepository env repository.gitHubRepository with
        | none =>
          refine ⟨rfl, ?_⟩
          intro e he
          simpa using he
        | some account =>
          dsimp only
          rw [hskip]
          refine ⟨by simp, ?_⟩
          intro e he
          simp at he
          exact he

/-- Witness for C3: with the SHA already in the Skip Set, the handler leaves
the state unchanged. -/
theorem C3_skip_set_short_circuit_witness :
    (handleChecksFailedEvent stSkip 1 "abc1234567890" envTheirs (some repoA)).1 = stSkip :=
  ((C3_skip_set_short_circuit stSkip 1 "abc1234567890" envTheirs (some repoA)).2 rfl).1

/-- Claim C4: with an authorized account available, `getChecksForRef` returns
null whenever either fetch is null, and null when the combined list is empty;
otherwise it returns exactly the non-empty combined list. -/
theorem C4_getChecksForRef_null_policy (env : Env)
    (repository : RepositoryWithGitHubRepository) (ref : String) (account : Account)
    (hacct : getAPIForRepository env repository.gitHubRepository = some account) :
    ((env.fetchCombinedRefStatus repository.gitHubRepository.ownerLogin
        repository.gitHubRepository.name ref = none ∨
      env.fetchRefCheckRuns repository.gitHubRepository.ownerLogin
        repository.gitHubRepository.name ref = none) →
      (getChecksForRef env repository ref).1 = none) ∧
    (∀ statuses checkRuns,
      env.fetchCombinedRefStatus repository.gitHubRepository.ownerLogin
        repository.gitHubRepository.name ref = some statuses →
      env.fetchRefCheckRuns repository.gitHubRepository.ownerLogin
        repository.gitHubRepository.name ref = some checkRuns →
      (combinedChecksOf statuses checkRuns = [] →
        (getChecksForRef env repository ref).1 = none) ∧
      (combinedChecksOf statuses checkRuns ≠ [] →
        (getChecksForRef env repository ref).1 = some (combinedChecksOf statuses checkRuns))) := by
  constructor
  · intro h
    cases hs : env.fetchCombinedRefStatus repository.gitHubRepository.ownerLogin
        repository.gitHubRepository.name ref with
    | none => simp [getChecksForRef, hacct, hs]
    | some statuses =>
      cases hr : env.fetchRefCheckRuns repository.gitHubRepository.ownerLogin
          repository.gitHubRepository.name ref with
      | none => simp [getChecksForRef, hacct, hs, hr]
      | some checkRuns =>
        rcases h with h | h
        · rw [hs] at h
          exact Option.noConfusion h
        · rw [hr] at h
          exact Option.noConfusion h
  · intro statuses checkRuns hs hr
    constructor
    · intro hempty
      simp [getChecksForRef, hacct, hs, hr, hempty, createCombinedCheckFromChecks]
    · intro hne
      cases hc : combinedChecksOf statuses checkRuns with
      | nil => exact absurd hc hne
      | cons c cs =>
        simp [getChecksForRef, hacct, hs, hr, hc, createCombinedCheckFromChecks]

/-- Witness for C4: on the concrete environment `envOk` both fetches succeed
and the combined list is the single failing build check. -/
theorem C4_getChecksForRef_null_policy_witness :
    (getChecksForRef envOk repoA "feature-branch").1 =
      some (combinedChecksOf ⟨[]⟩ ⟨[failingRun]⟩) :=
  (((C4_getChecksForRef_null_policy envOk repoA "feature-branch" accountA rfl).2
    ⟨[]⟩ ⟨[failingRun]⟩ rfl rfl).2) (by decide)

/-- Claim C5: given a non-null live selection, a notification is shown iff
the number of checks whose conclusion is exactly `Failure` is positive, and a
check list with no `Failure` conclusion (e.g. only cancelled, skipped or
neutral entries) produces no notification. -/
theorem C5_notification_iff_failures (repository : RepositoryWithGitHubRepository)
    (pr : PullRequest) (checks : List IRefCheck) (sha msg : String) :
    ((postChecksFailedNotification (some repository) pr checks sha msg).isSome ↔
      0 < numberOfFailedChecks checks) ∧
    ((∀ c ∈ checks, c.conclusion ≠ some APICheckConclusion.Failure) →
      postChecksFailedNotification (some repository) pr checks sha msg = none) := by
  constructor
  · by_cases hn : numberOfFailedChecks checks = 0
    · simp [postChecksFailedNotification, hn]
    · simp [postChecksFailedNotification, hn, Nat.pos_of_ne_zero hn]
  · intro hall
    have hn : numberOfFailedChecks checks = 0 := by
      unfold numberOfFailedChecks
      rw [List.length_eq_zero, List.filter_eq_nil_iff]
      intro c hc
      simp [hall c hc]
    simp [postChecksFailedNotification, hn]

/-- Witness for C5: a list holding one cancelled, one skipped and one neutral
check yields no notification. -/
theorem C5_notification_iff_failures_witness :
    postChecksFailedNotification (some repoA) prOne
      [{ name := "a", conclusion := some APICheckConclusion.Cancelled },
       { name := "b", conclusion := some APICheckConclusion.Skipped },
       { name := "c", conclusion := some APICheckConclusion.Neutral }]
      "abc1234567890" "msg" = none :=
  (C5_notification_iff_failures repoA prOne
    [{ name := "a", conclusion := some APICheckConclusion.Cancelled },
     { name := "b", conclusion := some APICheckConclusion.Skipped },
     { name := "c", conclusion := some APICheckConclusion.Neutral }]
    "abc1234567890" "msg").2 (by decide)

/-- Claim C6: whenever a notification is produced, its title is exactly
"Pull Request checks failed" and its body is exactly
"<PR title> #<PR number> (<first 9 chars of SHA>)\n<N> <check(s)> was/were
not successful.", singular for one failed check and plural otherwise. -/
theorem C6_notification_text (repository : RepositoryWithGitHubRepository)
    (pr : PullRequest) (checks : List IRefCheck) (sha msg : String)
    (hfail : 0 < numberOfFailedChecks checks) :
    postChecksFailedNotification (some repository) pr checks sha msg =
      some { title := "Pull Request checks failed"
             body := pr.title ++ " #" ++ toString pr.pullRequestNumber ++ " (" ++
               sha.take 9 ++ ")\n" ++ toString (numberOfFailedChecks checks) ++ " " ++
               (if numberOfFailedChecks checks = 1 then "check was" else "checks were") ++
               " not successful."
             clickRepository := repository
             clickPullRequest := pr
             clickCommitMessage := msg
             clickSha := sha
             clickChecks := checks } :=
  postChecksFailedNotification_eq repository pr checks sha msg
    (Nat.pos_iff_ne_zero.mp hfail)

/-- Witness for C6: with SHA "abc1234567890" and one failed check the body is
the literal "Add feature #1 (abc123456)\n1 check was not successful." (SHA
truncated to its first 9 characters, singular phrasing). -/
theorem C6_notification_text_witness :
    postChecksFailedNotification (some repoA) prOne
        [{ name := "build", conclusion := some APICheckConclusion.Failure }]
        "abc1234567890" "Add feature" =
      some { title := "Pull Request checks failed"
             body := "Add feature #1 (abc123456)\n1 check was not successful."
             clickRepository := repoA
             clickPullRequest := prOne
             clickCommitMessage := "Add feature"
             clickSha := "abc1234567890"
             clickChecks :=
               [{ name := "build", conclusion := some APICheckConclusion.Failure }] } := by
  rw [C6_notification_text repoA prOne
    [{ name := "build", conclusion := some APICheckConclusion.Failure }]
    "abc1234567890" "Add feature" (by decide)]
  rfl

/-- Claim C7: whenever `getChecksForRef` returns a check list, it is exactly
the status entries mapped 1:1, followed by the name-deduplicated latest
check runs, in that order. -/
theorem C7_statuses_then_latest_runs (env : Env)
    (repository : RepositoryWithGitHubRepository) (ref : String)
    (statuses : IAPIRefStatus) (checkRuns : IAPIRefCheckRuns) (l : List IRefCheck)
    (hs : env.fetchCombinedRefStatus repository.gitHubRepository.ownerLogin
        repository.gitHubRepository.name ref = some statuses)
    (hr : env.fetchRefCheckRuns repository.gitHubRepository.ownerLogin
        repository.gitHubRepository.name ref = some checkRuns)
    (hl : (getChecksForRef env repository ref).1 = some l) :
    l = statuses.statuses.map apiStatusToRefCheck ++
      (getLatestCheckRunsByName checkRuns.check_runs).map apiCheckRunToRefCheck := by
  show l = combinedChecksOf statuses checkRuns
  cases hapi : getAPIForRepository env repository.gitHubRepository with
  | none => simp [getChecksForRef, hapi] at hl
  | some account =>
    cases hc : combinedChecksOf statuses checkRuns with
    | nil => simp [getChecksForRef, hapi, hs, hr, hc, createCombinedCheckFromChecks] at hl
    | cons c cs =>
      simp [getChecksForRef, hapi, hs, hr, hc, createCombinedCheckFromChecks] at hl
      exact hl.symm

/-- Witness for C7: concrete aggregation over one status entry and two runs
of the same check name keeps the statuses first and only the latest run. -/
theorem C7_statuses_then_latest_runs_witness :
    ([{ name := "lint", conclusion := some APICheckConclusion.Success },
      { name := "build", conclusion := some APICheckConclusion.Failure }] :
        List IRefCheck) =
      (⟨[{ context := "lint", state := "success" }]⟩ : IAPIRefStatus).statuses.map
          apiStatusToRefCheck ++
        (getLatestCheckRunsByName
            (⟨[{ name := "build", run := 1, conclusion := some APICheckConclusion.Success },
               { name := "build", run := 2, conclusion := some APICheckConclusion.Failure }]⟩ :
              IAPIRefCheckRuns).check_runs).map apiCheckRunToRefCheck :=
  C7_statuses_then_latest_runs envC7 repoA "feature-branch"
    ⟨[{ context := "lint", state := "success" }]⟩
    ⟨[{ name := "build", run := 1, conclusion := some APICheckConclusion.Success },
      { name := "build", run := 2, conclusion := some APICheckConclusion.Failure }]⟩
    [{ name := "lint", conclusion := some APICheckConclusion.Success },
     { name := "build", conclusion := some APICheckConclusion.Failure }]
    rfl rfl (by decide)

/-- Claim C8: setting the flag to the currently effective value (persisted
value with default true) is a no-op with no effects; setting a different
value persists it and synchronously calls `AliveStore.setEnabled`; the getter
returns the persisted value, defaulting to true when absent. -/
theorem C8_settings_flag (stored : Option Bool) (enabled : Bool) :
    (getBoolean stored true = enabled →
      setNotificationsEnabled ⟨stored⟩ enabled = (⟨stored⟩, [])) ∧
    (getBoolean stored true ≠ enabled →
      setNotificationsEnabled ⟨stored⟩ enabled =
        (⟨some enabled⟩,
          [SettingsEffect.persistBooleanWrite enabled,
           SettingsEffect.aliveSetEnabled enabled])) ∧
    (∀ b, stored = some b → getNotificationsEnabled ⟨stored⟩ = b) ∧
    (stored = none → getNotificationsEnabled ⟨stored⟩ = true) := by
  refine ⟨?_, ?_, ?_, ?_⟩
  · intro h
    simp [setNotificationsEnabled, h]
  · intro h
    simp [setNotificationsEnabled, h]
  · intro b hb
    subst hb
    rfl
  · intro h
    subst h
    rfl

/-- Witness for C8: with nothing persisted (effective value true), disabling
persists false and propagates it; re-disabling from a persisted false is a
no-op. -/
theorem C8_settings_flag_witness :
    setNotificationsEnabled ⟨none⟩ false =
      (⟨some false⟩,
        [SettingsEffect.persistBooleanWrite false, SettingsEffect.aliveSetEnabled false]) ∧
    setNotificationsEnabled ⟨some false⟩ false = (⟨some false⟩, []) :=
  ⟨(C8_settings_flag none false).2.1 (by decide),
   (C8_settings_flag (some false) false).1 (by decide)⟩

/-- Claim C9: an alive event of any kind other than checks-failed leaves the
state unchanged and produces no effect at all (no collaborator call, no
notification). -/
theorem C9_other_events_no_effect (st : NotificationsState) (env : Env)
    (sel : Option RepositoryWithGitHubRepository) (e : DesktopAliveEvent)
    (h : ∀ event, e ≠ DesktopAliveEvent.prChecksFailed event) :
    onAliveEventReceived st e env sel = (st, []) := by
  cases e with
  | prChecksFailed event => exact absurd rfl (h event)
  | otherKind tag => rfl

/-- Witness for C9: a concrete unhandled event kind is a no-op even with a
fully notification-ready state and environment. -/
theorem C9_other_events_no_effect_witness :
    onAliveEventReceived st0 (DesktopAliveEvent.otherKind "pr-review-submitted") envOk
      (some repoA) = (st0, []) :=
  C9_other_events_no_effect st0 envOk (some repoA)
    (DesktopAliveEvent.otherKind "pr-review-submitted")
    (fun event h => DesktopAliveEvent.noConfusion h)

/-- Claim C10: if the pipeline for the originally selected repository reaches
dispatch (PR found, account found, commit resolved and accepted, checks
fetched with at least one failure) and the live selection has been replaced
by a different GitHub-linked repository, the notification is still shown,
and its click payload pairs the dispatch-time repository with the pull
request, checks, SHA and commit message resolved from the original
repository. -/
theorem C10_inflight_switch_notification (st : NotificationsState) (prNum : Nat)
    (sha : String) (env : Env) (repoLive repository : RepositoryWithGitHubRepository)
    (pullRequest : PullRequest) (account : Account) (commit : Commit)
    (checks : List IRefCheck)
    (hrepo : st.repository = some repository)
    (hdiff : repoLive ≠ repository)
    (hpr : (env.getAllPullRequests repository).find?
        (fun pr => pr.pullRequestNumber == prNum) = some pullRequest)
    (hacct : getAccountForRepository env repository.gitHubRepository = some account)
    (hskip : st.skipCommitShas.contains sha = false)
    (hcommit : (st.cachedCommits.lookup sha).or (env.getCommit repository sha) = some commit)
    (hemail : (account.emails.map (fun e => e.email)).contains commit.author.email = true)
    (hchecks : (getChecksForRef env repository pullRequest.head.ref).1 = some checks)
    (hfail : 0 < numberOfFailedChecks checks) :
    ∃ note,
      postedNotes (handleChecksFailedEvent st prNum sha env (some repoLive)).2 = [note] ∧
      note.clickRepository = repoLive ∧ note.clickPullRequest = pullRequest ∧
      note.clickChecks = checks ∧ note.clickSha = sha ∧
      note.clickCommitMessage = commit.summary := by
  have hpost := handle_posted_eq st prNum sha env (some repoLive) repository pullRequest
    account commit checks hrepo hpr hacct hskip hcommit hemail hchecks
  rw [postChecksFailedNotification_eq repoLive pullRequest checks sha commit.summary
    (Nat.pos_iff_ne_zero.mp hfail)] at hpost
  exact ⟨_, hpost.trans rfl, rfl, rfl, rfl, rfl, rfl⟩

/-- Witness for C10: the concrete successful pipeline with the selection
switched from `repoA` to `repoB` mid-flight still posts one notification,
whose click payload carries `repoB` with the data resolved from `repoA`. -/
theorem C10_inflight_switch_notification_witness :
    ∃ note,
      postedNotes (handleChecksFailedEvent st0 1 "abc1234567890" envOk (some repoB)).2 =
        [note] ∧
      note.clickRepository = repoB ∧ note.clickPullRequest = prOne ∧
      note.clickChecks = [{ name := "build", conclusion := some APICheckConclusion.Failure }] ∧
      note.clickSha = "abc1234567890" ∧
      note.clickCommitMessage = commitMine.summary :=
  C10_inflight_switch_notification st0 1 "abc1234567890" envOk repoB repoA prOne accountA
    commitMine [{ name := "build", conclusion := some APICheckConclusion.Failure }]
    rfl (by decide) rfl rfl rfl rfl rfl rfl (by decide)
